import Mathlib

/-!
Shallow embedding of the scouting pipeline in `src/main.py` (Sherpa Scout).
Python numbers are modelled as exact rationals (`ℚ`); Python's
`round(x, 2)` is modelled as round-half-to-even at two decimals (`round2`)
and Python's `int(x)` as truncation toward zero (`truncQ`).
-/

namespace Scout

/-- Model of Python's `int(x)`: truncation toward zero. -/
def truncQ (x : ℚ) : ℤ :=
  if x < 0 then ⌈x⌉ else ⌊x⌋

/-- Round-half-to-even to the nearest integer, as Python's `round` does. -/
def rhe (x : ℚ) : ℤ :=
  let f := ⌊x⌋
  let r := x - f
  if r < 1/2 then f
  else if 1/2 < r then f + 1
  else if f % 2 = 0 then f else f + 1

/-- Model of Python's `round(x, 2)`: round half to even at two decimals. -/
def round2 (x : ℚ) : ℚ :=
  (rhe (x * 100) : ℚ) / 100

/-- `class Stat(BaseModel)`: a named statistic. -/
structure Stat where
  name : String
  value : ℚ
deriving Repr, DecidableEq

/-- `class Player(BaseModel)`: the input record.  The boundary contract
(pydantic) keeps `marketability_score` in `[0,1]` with default `0.5` and
defaults `stats`/`highlights` to empty lists; here the fields are plain. -/
structure Player where
  full_name : String
  position : String
  age : ℤ
  stats : List Stat
  marketability_score : ℚ
  highlights : List String
deriving Repr, DecidableEq

/-- The dict returned by `compute_fit_scores`. -/
structure FitScores where
  overall_score : ℚ
  team_fit : ℚ
  agency_fit : ℚ
  opportunity_score : ℚ
deriving Repr, DecidableEq

/-- The dict returned by `draft_projection`. -/
structure DraftProjection where
  projected_round : ℤ
  projected_pick_estimate : Option ℤ
  draft_probability : ℚ
deriving Repr, DecidableEq

/-- The dict returned by `nil_value_estimate`. -/
structure NilEstimate where
  current_estimated_nil : ℤ
  projected_12m_nil : ℤ
  brand_suggestions : List String
deriving Repr, DecidableEq

/-- `class ReportResponse(BaseModel)`: the aggregate response. -/
structure Report where
  player : Player
  fit_scores : FitScores
  draft_projection : DraftProjection
  nil_estimate : NilEstimate
  report : String
deriving Repr, DecidableEq

/-- `compute_overall_score(stats)`: `50.0` on an empty list, otherwise the
mean of the `value` fields clamped to `[0, 100]`. -/
def compute_overall_score (stats : List Stat) : ℚ :=
  if stats = [] then 50
  else
    let vals := stats.map Stat.value
    let mean := vals.sum / (stats.length : ℚ)
    max 0 (min 100 mean)

/-- The `position_factor` expression inside `compute_fit_scores`:
`1.0 if player.position.lower() in ("guard","forward","center","midfielder","forward") else 0.8`. -/
def position_factor (position : String) : ℚ :=
  if position.toLower ∈ ["guard", "forward", "center", "midfielder", "forward"]
  then 1 else 0.8

/-- `compute_fit_scores(player)`. -/
def compute_fit_scores (player : Player) : FitScores :=
  let overall := compute_overall_score player.stats
  let age_factor : ℚ := ((max 0 (30 - player.age) : ℤ) : ℚ) / 30
  let posf := position_factor player.position
  let market := player.marketability_score
  let team_fit := (overall / 100) * 0.6 + age_factor * 0.2 + market * 0.2
  let agency_fit := market * 0.6 + (overall / 100) * 0.4
  let opportunity := (team_fit + agency_fit) / 2
  let _ := posf
  { overall_score := round2 overall
    team_fit := round2 (team_fit * 100)
    agency_fit := round2 (agency_fit * 100)
    opportunity_score := round2 (opportunity * 100) }

/-- `draft_projection(player, overall_score)`. -/
def draft_projection (player : Player) (overall_score : ℚ) : DraftProjection :=
  let _ := player
  if overall_score ≥ 85 then
    { projected_round := 1
      projected_pick_estimate := some (max 1 (truncQ (30 - (overall_score - 85))))
      draft_probability := round2 0.95 }
  else if overall_score ≥ 70 then
    { projected_round := 1
      projected_pick_estimate := some (truncQ (30 + (85 - overall_score)))
      draft_probability := round2 0.75 }
  else if overall_score ≥ 55 then
    { projected_round := 2
      projected_pick_estimate := some (truncQ (50 + (70 - overall_score)))
      draft_probability := round2 0.45 }
  else
    { projected_round := 3
      projected_pick_estimate := none
      draft_probability := round2 0.12 }

/-- `nil_value_estimate(player, overall_score)`. -/
def nil_value_estimate (player : Player) (overall_score : ℚ) : NilEstimate :=
  let base := (overall_score / 100) * 200000
  let brand_multiplier := 1 + player.marketability_score
  let projection_12m := base * brand_multiplier * 1.1
  let suggestions :=
    if player.marketability_score > 0.8 then
      ["National brand endorsements; social-first campaigns"]
    else if player.marketability_score > 0.5 then
      ["Regional brands, niche sponsors"]
    else
      ["Local sponsorships, community partnerships"]
  { current_estimated_nil := truncQ base
    projected_12m_nil := truncQ projection_12m
    brand_suggestions := suggestions }

/-- `build_pitch(player, fit)`: the f-string template, with Lean's
`toString` standing in for Python's numeric formatting. -/
def build_pitch (player : Player) (fit : FitScores) : String :=
  "Pitch for " ++ player.full_name ++ " (" ++ player.position ++ ", age "
    ++ toString player.age ++ ")\n"
    ++ "Overall Score: " ++ toString fit.overall_score ++ "\n"
    ++ "Team Fit: " ++ toString fit.team_fit ++ " | Agency Fit: "
    ++ toString fit.agency_fit ++ "\n"
    ++ "Opportunity: " ++ toString fit.opportunity_score ++ "\n\n"
    ++ "Why sign:\n"
    ++ "- Plays " ++ player.position ++ " with consistent metrics.\n"
    ++ "- Marketability: " ++ toString player.marketability_score ++ "\n"
    ++ "- Key strengths: "
    ++ (if player.highlights.isEmpty then "N/A"
        else String.intercalate "; " player.highlights)
    ++ "\n\n"
    ++ "Recommended next steps:\n"
    ++ "1. Shortlist for targeted tryout.\n"
    ++ "2. Produce highlight reel and social push.\n"
    ++ "3. Introduce to 2-3 regional brands for initial NIL deals.\n"

/-- `generate_report(player)`: the `/generate_report` endpoint body. -/
def generate_report (player : Player) : Report :=
  let fit := compute_fit_scores player
  let draft := draft_projection player fit.overall_score
  let nil_est := nil_value_estimate player fit.overall_score
  let pitch := build_pitch player fit
  { player := player
    fit_scores := fit
    draft_projection := draft
    nil_estimate := nil_est
    report := pitch }

/-- The draft projector as the specification words it: a four-bucket step
function keyed on `overall_score`, with `floor` in the pick formulas and
the probabilities written directly. -/
def draft_projection_spec (overall_score : ℚ) : DraftProjection :=
  if overall_score ≥ 85 then
    { projected_round := 1
      projected_pick_estimate := some (max 1 ⌊30 - (overall_score - 85)⌋)
      draft_probability := 0.95 }
  else if overall_score ≥ 70 then
    { projected_round := 1
      projected_pick_estimate := some ⌊30 + (85 - overall_score)⌋
      draft_probability := 0.75 }
  else if overall_score ≥ 55 then
    { projected_round := 2
      projected_pick_estimate := some ⌊50 + (70 - overall_score)⌋
      draft_probability := 0.45 }
  else
    { projected_round := 3
      projected_pick_estimate := none
      draft_probability := 0.12 }

/-- The part of the pitch template before the highlight slot. -/
def pitchHead (player : Player) (fit : FitScores) : String :=
  "Pitch for " ++ player.full_name ++ " (" ++ player.position ++ ", age "
    ++ toString player.age ++ ")\n"
    ++ "Overall Score: " ++ toString fit.overall_score ++ "\n"
    ++ "Team Fit: " ++ toString fit.team_fit ++ " | Agency Fit: "
    ++ toString fit.agency_fit ++ "\n"
    ++ "Opportunity: " ++ toString fit.opportunity_score ++ "\n\n"
    ++ "Why sign:\n"
    ++ "- Plays " ++ player.position ++ " with consistent metrics.\n"
    ++ "- Marketability: " ++ toString player.marketability_score ++ "\n"
    ++ "- Key strengths: "

/-- The part of the pitch template after the highlight slot. -/
def pitchTail : String :=
  "\n\n"
    ++ "Recommended next steps:\n"
    ++ "1. Shortlist for targeted tryout.\n"
    ++ "2. Produce highlight reel and social push.\n"
    ++ "3. Introduce to 2-3 regional brands for initial NIL deals.\n"

/-- The spec's end-to-end example Player. -/
def alexChen : Player :=
  { full_name := "Alex Chen"
    position := "Guard"
    age := 20
    stats := [⟨"ppg", 90⟩, ⟨"apg", 80⟩]
    marketability_score := 0.9
    highlights := ["All-conference"] }

/-- A Player whose raw stat mean 84.996 sits in `[84.995, 85)`. -/
def boundaryPlayer : Player :=
  { full_name := "Boundary Case"
    position := "Center"
    age := 21
    stats := [⟨"composite", 84996/1000⟩]
    marketability_score := 0.5
    highlights := [] }

end Scout

namespace Scout

/-! ### Helper lemmas about the numeric models -/

lemma truncQ_eq_floor {x : ℚ} (h : 0 ≤ x) : truncQ x = ⌊x⌋ := by
  unfold truncQ
  rw [if_neg (not_lt.mpr h)]

lemma max_one_truncQ (x : ℚ) : max 1 (truncQ x) = max 1 ⌊x⌋ := by
  rcases le_or_lt 0 x with h | h
  · rw [truncQ_eq_floor h]
  · unfold truncQ
    rw [if_pos h]
    have h1 : ⌈x⌉ ≤ 0 := Int.ceil_le.mpr (by exact_mod_cast h.le)
    have h2 : ⌊x⌋ ≤ ⌈x⌉ := Int.floor_le_ceil x
    omega

lemma floor_le_rhe (x : ℚ) : ⌊x⌋ ≤ rhe x := by
  simp only [rhe]
  split_ifs <;> omega

lemma rhe_nonneg {x : ℚ} (h : 0 ≤ x) : 0 ≤ rhe x :=
  le_trans (Int.floor_nonneg.mpr h) (floor_le_rhe x)

lemma rhe_le_of_le {x : ℚ} {n : ℤ} (h : x ≤ n) : rhe x ≤ n := by
  have hfl : ⌊x⌋ ≤ n := by
    calc ⌊x⌋ ≤ ⌊(n : ℚ)⌋ := Int.floor_le_floor h
    _ = n := Int.floor_intCast n
  have hlow : (⌊x⌋ : ℚ) ≤ x := Int.floor_le x
  simp only [rhe]
  split_ifs with h1 h2 h3
  · exact hfl
  · have h4 : (⌊x⌋ : ℚ) + 1/2 ≤ (n : ℚ) := by linarith
    have h5 : (⌊x⌋ : ℚ) < (n : ℚ) := by linarith
    have h6 : ⌊x⌋ < n := by exact_mod_cast h5
    omega
  · exact hfl
  · have h4 : (⌊x⌋ : ℚ) + 1/2 ≤ (n : ℚ) := by linarith
    have h5 : (⌊x⌋ : ℚ) < (n : ℚ) := by linarith
    have h6 : ⌊x⌋ < n := by exact_mod_cast h5
    omega

lemma round2_nonneg {x : ℚ} (h : 0 ≤ x) : 0 ≤ round2 x := by
  have h1 : 0 ≤ rhe (x * 100) := rhe_nonneg (mul_nonneg h (by norm_num))
  unfold round2
  exact div_nonneg (by exact_mod_cast h1) (by norm_num)

lemma round2_le_100 {x : ℚ} (h : x ≤ 100) : round2 x ≤ 100 := by
  have h1 : x * 100 ≤ ((10000 : ℤ) : ℚ) := by push_cast; linarith
  have h2 : rhe (x * 100) ≤ 10000 := rhe_le_of_le h1
  unfold round2
  rw [div_le_iff₀ (by norm_num : (0:ℚ) < 100)]
  calc ((rhe (x * 100)) : ℚ) ≤ 10000 := by exact_mod_cast h2
  _ = 100 * 100 := by norm_num

lemma rhe_eq_of_ge_half {x : ℚ} {n : ℤ} (hodd : n % 2 = 1)
    (h1 : (n : ℚ) + 1/2 ≤ x) (h2 : x < (n : ℚ) + 1) : rhe x = n + 1 := by
  have hfl : ⌊x⌋ = n := by
    rw [Int.floor_eq_iff]
    constructor
    · linarith
    · linarith
  simp only [rhe, hfl]
  split_ifs with ha hb hc
  · exfalso; linarith
  · rfl
  · exfalso; omega
  · rfl

lemma overall_bounds (stats : List Stat) :
    0 ≤ compute_overall_score stats ∧ compute_overall_score stats ≤ 100 := by
  unfold compute_overall_score
  split_ifs with h
  · norm_num
  · exact ⟨le_max_left 0 _, max_le (by norm_num) (min_le_left _ _)⟩

end Scout

namespace Scout

/-! ### Claim theorems -/

/-- C1: for every structurally valid Player, `generate_report` is a
deterministic total function: two calls on equal Players return equal
Reports (totality holds by construction: the embedding of every stage is a
total function, so no run raises). -/
theorem generate_report_deterministic_total (p₁ p₂ : Player) (h : p₁ = p₂) :
    generate_report p₁ = generate_report p₂ ∧
    generate_report p₁ =
      { player := p₁
        fit_scores := compute_fit_scores p₁
        draft_projection := draft_projection p₁ (compute_fit_scores p₁).overall_score
        nil_estimate := nil_value_estimate p₁ (compute_fit_scores p₁).overall_score
        report := build_pitch p₁ (compute_fit_scores p₁) } := by
  subst h
  exact ⟨rfl, rfl⟩

/-- Witness for C1 at the spec's example player. -/
theorem generate_report_deterministic_total_witness :
    generate_report alexChen = generate_report alexChen :=
  (generate_report_deterministic_total alexChen alexChen rfl).1

/-- C2: the draft projector is exactly the four-bucket step function of the
spec (floor-based pick formulas, probabilities 0.95/0.75/0.45/0.12), with
85.0 in the top bucket and 54.999 giving round 3 and no pick. -/
theorem draft_projection_step_function (p : Player) (os : ℚ) :
    draft_projection p os = draft_projection_spec os ∧
    draft_projection p 85 =
      { projected_round := 1
        projected_pick_estimate := some 30
        draft_probability := 0.95 } ∧
    draft_projection p (54.999 : ℚ) =
      { projected_round := 3
        projected_pick_estimate := none
        draft_probability := 0.12 } := by
  refine ⟨?_, ?_, ?_⟩
  · have hp95 : round2 (0.95 : ℚ) = 0.95 := by norm_num [round2, rhe]
    have hp75 : round2 (0.75 : ℚ) = 0.75 := by norm_num [round2, rhe]
    have hp45 : round2 (0.45 : ℚ) = 0.45 := by norm_num [round2, rhe]
    have hp12 : round2 (0.12 : ℚ) = 0.12 := by norm_num [round2, rhe]
    simp only [draft_projection, draft_projection_spec]
    split_ifs with h1 h2 h3
    · rw [hp95, max_one_truncQ]
    · rw [hp75, truncQ_eq_floor (by have := not_le.mp h1; linarith)]
    · rw [hp45, truncQ_eq_floor (by have := not_le.mp h2; linarith)]
    · rw [hp12]
  · norm_num [draft_projection, truncQ, round2, rhe]
  · norm_num [draft_projection, round2, rhe]

/-- C3: the score normalizer returns 50.0 on the empty list, otherwise the
mean of the `value` fields clamped to `[0,100]`, and its result always lies
in `[0,100]`. -/
theorem compute_overall_score_spec_correct :
    compute_overall_score [] = 50 ∧
    (∀ stats : List Stat, stats ≠ [] →
      compute_overall_score stats =
        max 0 (min 100 ((stats.map Stat.value).sum / (stats.length : ℚ)))) ∧
    ∀ stats : List Stat,
      0 ≤ compute_overall_score stats ∧ compute_overall_score stats ≤ 100 := by
  refine ⟨rfl, ?_, overall_bounds⟩
  intro stats hne
  simp only [compute_overall_score, if_neg hne]

/-- Witness for C3 on a concrete non-empty stats list. -/
theorem compute_overall_score_spec_correct_witness :
    compute_overall_score [⟨"ppg", 90⟩] =
      max 0 (min 100 ((([⟨"ppg", 90⟩] : List Stat).map Stat.value).sum /
        (([⟨"ppg", 90⟩] : List Stat).length : ℚ))) :=
  compute_overall_score_spec_correct.2.1 _ (by simp)

/-- C7: two Players that differ only in `position` get equal FitScores —
`position_factor` is computed but never folded into the outputs. -/
theorem compute_fit_scores_position_independent (p : Player) (pos : String) :
    compute_fit_scores { p with position := pos } = compute_fit_scores p := rfl

/-- C8: on a non-empty stats list whose values all equal `v ∈ [0,100]`, the
score normalizer returns exactly `v`. -/
theorem compute_overall_score_constant_stats (stats : List Stat) (v : ℚ)
    (hne : stats ≠ []) (hall : ∀ s ∈ stats, s.value = v)
    (h0 : 0 ≤ v) (h1 : v ≤ 100) :
    compute_overall_score stats = v := by
  have hsum : (stats.map Stat.value).sum = stats.length • v := by
    have h := List.sum_eq_card_nsmul (stats.map Stat.value) v ?_
    · simpa using h
    · intro x hx
      obtain ⟨s, hs, rfl⟩ := List.mem_map.mp hx
      exact hall s hs
  have hlen : (stats.length : ℚ) ≠ 0 := by
    have h : stats.length ≠ 0 := by
      intro h0len
      exact hne (List.length_eq_zero.mp h0len)
    exact_mod_cast h
  simp only [compute_overall_score, if_neg hne]
  rw [hsum, nsmul_eq_mul, mul_div_cancel_left₀ _ hlen]
  rw [min_eq_right h1, max_eq_right h0]

/-- Witness for C8: a singleton list with value 70. -/
theorem compute_overall_score_constant_stats_witness :
    compute_overall_score [⟨"a", 70⟩] = 70 :=
  compute_overall_score_constant_stats _ 70 (by simp)
    (by
      intro s hs
      rw [List.mem_singleton] at hs
      rw [hs])
    (by norm_num) (by norm_num)

end Scout

namespace Scout

/-- C4: the fit evaluator computes exactly the documented formulas —
`overall_score = round2(overall)`,
`team_fit = round2(100·(0.6·(overall/100) + 0.2·age_factor + 0.2·market))`,
`agency_fit = round2(100·(0.6·market + 0.4·(overall/100)))`, and
`opportunity_score = round2(100·((team_fit_fraction + agency_fit_fraction)/2))`. -/
theorem compute_fit_scores_formulas (p : Player) :
    compute_fit_scores p =
      { overall_score := round2 (compute_overall_score p.stats)
        team_fit := round2 (100 * (0.6 * (compute_overall_score p.stats / 100)
          + 0.2 * (((max 0 (30 - p.age) : ℤ) : ℚ) / 30)
          + 0.2 * p.marketability_score))
        agency_fit := round2 (100 * (0.6 * p.marketability_score
          + 0.4 * (compute_overall_score p.stats / 100)))
        opportunity_score := round2 (100 *
          (((0.6 * (compute_overall_score p.stats / 100)
              + 0.2 * (((max 0 (30 - p.age) : ℤ) : ℚ) / 30)
              + 0.2 * p.marketability_score)
            + (0.6 * p.marketability_score
              + 0.4 * (compute_overall_score p.stats / 100))) / 2)) } := by
  simp only [compute_fit_scores, FitScores.mk.injEq, true_and]
  refine ⟨?_, ?_, ?_⟩ <;> exact congrArg round2 (by ring)

/-- C5: for a valid Player (`marketability_score ∈ [0,1]`, non-negative
age; negative ages are out of scope), `team_fit`, `agency_fit` and
`opportunity_score` all lie in `[0, 100]`. -/
theorem compute_fit_scores_in_range (p : Player)
    (hm0 : 0 ≤ p.marketability_score) (hm1 : p.marketability_score ≤ 1)
    (hage : 0 ≤ p.age) :
    (0 ≤ (compute_fit_scores p).team_fit ∧ (compute_fit_scores p).team_fit ≤ 100) ∧
    (0 ≤ (compute_fit_scores p).agency_fit ∧ (compute_fit_scores p).agency_fit ≤ 100) ∧
    (0 ≤ (compute_fit_scores p).opportunity_score ∧
      (compute_fit_scores p).opportunity_score ≤ 100) := by
  obtain ⟨ho0, ho1⟩ := overall_bounds p.stats
  have haf0 : (0:ℚ) ≤ ((max 0 (30 - p.age) : ℤ) : ℚ) / 30 :=
    div_nonneg (by exact_mod_cast le_max_left 0 (30 - p.age)) (by norm_num)
  have haf1 : ((max 0 (30 - p.age) : ℤ) : ℚ) / 30 ≤ 1 := by
    rw [div_le_one (by norm_num : (0:ℚ) < 30)]
    have h30 : (max 0 (30 - p.age) : ℤ) ≤ 30 := by omega
    exact_mod_cast h30
  simp only [compute_fit_scores]
  set o := compute_overall_score p.stats with hodef
  set af := ((max 0 (30 - p.age) : ℤ) : ℚ) / 30 with hafdef
  set mk := p.marketability_score with hmkdef
  refine ⟨⟨?_, ?_⟩, ⟨?_, ?_⟩, ⟨?_, ?_⟩⟩
  · exact round2_nonneg (by linarith)
  · exact round2_le_100 (by linarith)
  · exact round2_nonneg (by linarith)
  · exact round2_le_100 (by linarith)
  · exact round2_nonneg (by linarith)
  · exact round2_le_100 (by linarith)

/-- Witness for C5 at the spec's example player. -/
theorem compute_fit_scores_in_range_witness :
    (0 ≤ alexChen.marketability_score ∧ alexChen.marketability_score ≤ 1 ∧
      0 ≤ alexChen.age) ∧
    ((0 ≤ (compute_fit_scores alexChen).team_fit ∧
        (compute_fit_scores alexChen).team_fit ≤ 100) ∧
      (0 ≤ (compute_fit_scores alexChen).agency_fit ∧
        (compute_fit_scores alexChen).agency_fit ≤ 100) ∧
      (0 ≤ (compute_fit_scores alexChen).opportunity_score ∧
        (compute_fit_scores alexChen).opportunity_score ≤ 100)) :=
  ⟨⟨by norm_num [alexChen], by norm_num [alexChen], by norm_num [alexChen]⟩,
    compute_fit_scores_in_range alexChen (by norm_num [alexChen])
      (by norm_num [alexChen]) (by norm_num [alexChen])⟩

/-- C6: the NIL estimator truncates `base = (overall_score/100)·200000` and
`projected_12m = base·(1+market)·1.1` toward zero; at `overall_score = 100,
market = 1` it yields 200000 and 440000, and at `overall_score = 85,
market = 0.9` it yields 170000 and 355300. -/
theorem nil_value_estimate_trunc :
    (∀ (p : Player) (os : ℚ),
      (nil_value_estimate p os).current_estimated_nil =
        truncQ ((os / 100) * 200000) ∧
      (nil_value_estimate p os).projected_12m_nil =
        truncQ (((os / 100) * 200000) * (1 + p.marketability_score) * 1.1)) ∧
    (∀ p : Player, p.marketability_score = 1 →
      (nil_value_estimate p 100).current_estimated_nil = 200000 ∧
      (nil_value_estimate p 100).projected_12m_nil = 440000) ∧
    (∀ p : Player, p.marketability_score = 0.9 →
      (nil_value_estimate p 85).current_estimated_nil = 170000 ∧
      (nil_value_estimate p 85).projected_12m_nil = 355300) := by
  refine ⟨fun p os => ⟨rfl, rfl⟩, ?_, ?_⟩
  · intro p hm
    constructor <;> norm_num [nil_value_estimate, truncQ, hm]
  · intro p hm
    constructor <;> norm_num [nil_value_estimate, truncQ, hm]

/-- Witness for C6 at marketability 1 and at the example player. -/
theorem nil_value_estimate_trunc_witness :
    ((⟨"A", "G", 20, [], 1, []⟩ : Player).marketability_score = 1 ∧
      (nil_value_estimate ⟨"A", "G", 20, [], 1, []⟩ 100).current_estimated_nil = 200000 ∧
      (nil_value_estimate ⟨"A", "G", 20, [], 1, []⟩ 100).projected_12m_nil = 440000) ∧
    (alexChen.marketability_score = 0.9 ∧
      (nil_value_estimate alexChen 85).current_estimated_nil = 170000 ∧
      (nil_value_estimate alexChen 85).projected_12m_nil = 355300) :=
  ⟨⟨rfl, (nil_value_estimate_trunc.2.1 _ rfl).1, (nil_value_estimate_trunc.2.1 _ rfl).2⟩,
    ⟨rfl, (nil_value_estimate_trunc.2.2 _ rfl).1, (nil_value_estimate_trunc.2.2 _ rfl).2⟩⟩

/-- C9: the pitch composer deterministically returns the fixed template,
embedding the placeholder token `"N/A"` when `highlights` is empty and the
highlights joined with `"; "` in original order otherwise. -/
theorem build_pitch_highlights_spec (p : Player) (fit : FitScores) :
    build_pitch p fit =
      pitchHead p fit ++
        (if p.highlights = [] then "N/A"
         else String.intercalate "; " p.highlights) ++ pitchTail := by
  cases hh : p.highlights with
  | nil => simp [build_pitch, pitchHead, pitchTail, hh, String.append_assoc]
  | cons a t => simp [build_pitch, pitchHead, pitchTail, hh, String.append_assoc]

/-- C10: `generate_report` feeds the 2-decimal-rounded overall score (not
the raw mean) to the draft projector and the NIL estimator; for a raw mean
in `[84.995, 85)` the report's projection is round 1 with probability 0.95,
while the projector applied to the raw mean would give 0.75. -/
theorem generate_report_uses_rounded_overall :
    (∀ p : Player,
      (generate_report p).draft_projection =
        draft_projection p (compute_fit_scores p).overall_score ∧
      (generate_report p).nil_estimate =
        nil_value_estimate p (compute_fit_scores p).overall_score) ∧
    (∀ p : Player, p.stats ≠ [] →
      (84995 / 1000 : ℚ) ≤ (p.stats.map Stat.value).sum / (p.stats.length : ℚ) →
      (p.stats.map Stat.value).sum / (p.stats.length : ℚ) < 85 →
      (generate_report p).draft_projection.projected_round = 1 ∧
      (generate_report p).draft_projection.draft_probability = 0.95 ∧
      (draft_projection p
        ((p.stats.map Stat.value).sum / (p.stats.length : ℚ))).draft_probability
          = 0.75) := by
  constructor
  · exact fun p => ⟨rfl, rfl⟩
  · intro p hne h1 h2
    set mval := (p.stats.map Stat.value).sum / (p.stats.length : ℚ) with hmdef
    have hover : compute_overall_score p.stats = mval := by
      simp only [compute_overall_score, if_neg hne]
      rw [min_eq_right (by linarith), max_eq_right (by linarith)]
    have hrhe : rhe (mval * 100) = 8500 := by
      have h8 := rhe_eq_of_ge_half (x := mval * 100) (n := 8499) (by decide)
        (by push_cast; linarith) (by push_cast; linarith)
      omega
    have hrnd : round2 mval = 85 := by
      unfold round2
      rw [hrhe]
      norm_num
    have hos : (compute_fit_scores p).overall_score = 85 := by
      simp only [compute_fit_scores]
      rw [hover, hrnd]
    refine ⟨?_, ?_, ?_⟩
    · show (draft_projection p (compute_fit_scores p).overall_score).projected_round = 1
      rw [hos]
      norm_num [draft_projection]
    · show (draft_projection p (compute_fit_scores p).overall_score).draft_probability = 0.95
      rw [hos]
      norm_num [draft_projection, round2, rhe]
    · simp only [draft_projection]
      rw [if_neg (by simp only [ge_iff_le, not_le]; exact h2)]
      rw [if_pos (by linarith : mval ≥ 70)]
      norm_num [round2, rhe]

/-- Witness for C10 at a player with a single stat 84.996. -/
theorem generate_report_uses_rounded_overall_witness :
    (boundaryPlayer.stats ≠ [] ∧
      (84995 / 1000 : ℚ) ≤
        (boundaryPlayer.stats.map Stat.value).sum / (boundaryPlayer.stats.length : ℚ) ∧
      (boundaryPlayer.stats.map Stat.value).sum / (boundaryPlayer.stats.length : ℚ) < 85) ∧
    ((generate_report boundaryPlayer).draft_projection.projected_round = 1 ∧
      (generate_report boundaryPlayer).draft_projection.draft_probability = 0.95 ∧
      (draft_projection boundaryPlayer
        ((boundaryPlayer.stats.map Stat.value).sum /
          (boundaryPlayer.stats.length : ℚ))).draft_probability = 0.75) :=
  ⟨⟨by simp [boundaryPlayer], by norm_num [boundaryPlayer], by norm_num [boundaryPlayer]⟩,
    generate_report_uses_rounded_overall.2 boundaryPlayer (by simp [boundaryPlayer])
      (by norm_num [boundaryPlayer]) (by norm_num [boundaryPlayer])⟩

end Scout
